import Mathlib

/-!
Verification development for `scheduler.py` (UviSri/uv-booking-scheduler-2).

The script is a release-gated amenity-booking orchestrator: it waits for a
release instant (06:00:02 IST), fires a pair of reservation requests for the
day's two flats on the morning slots concurrently, then retries each failed
flat individually on its evening slot, and finally reports the results.

This file gives a shallow embedding of the script:
* JSON values (`JVal`/`JFields`) model the parsed HTTP response bodies and
  the Python values stored in the result records; Python `None` is `JVal.null`.
* The HTTP layer is abstracted into a response oracle: each network call is
  answered either by a transport-level exception / non-JSON body
  (`HttpResp.exn`, covering timeouts, connection errors and `r.json()`
  failures) or by a parsed JSON value (`HttpResp.json v`).  Request payloads
  (facility id, api url, booking date, slot string, flat id) only travel to
  the network and are absorbed into the oracle.
* Environment variables are a function `String → Option String` (`os.getenv`).
* Threads in `try_slot_pair` are recorded as a spawn/join trace; since each
  thread writes a distinct key of the result dict and shares no other mutable
  state, the joined result is deterministic and is modelled directly.
* Python exceptions that escape a function are modelled with `Option`
  (`none` = the exception propagates); the bare `except:` handlers of the
  script turn such `none`s back into values exactly where the source does.
* The release gate `wait_until_6am_or_run_now` is modelled separately as a
  fuel-bounded loop over an abstract clock oracle (`Nat → Int`, milliseconds
  since local midnight, exact for every constant the script uses);
  `time.sleep` calls are recorded as trace events.  It only delays, so the
  embedding of `main` elides it.
-/

mutual
/-- JSON values as parsed by `requests.Response.json()` / Python `json`.
`null` doubles as Python `None`.  Objects are modelled with the mutual
`JFields` list so that structural recursion stays simple; JSON arrays do not
occur on any path the script inspects and a value of any other shape read
where a dict is expected raises, which the embedding models via `Option`. -/
inductive JVal where
  | null : JVal
  | bool (b : Bool) : JVal
  | num (n : Int) : JVal
  | str (s : String) : JVal
  | obj (fs : JFields) : JVal

inductive JFields where
  | nil : JFields
  | cons (k : String) (v : JVal) (rest : JFields) : JFields
end

/-- Lookup of a key in a JSON object's field list (Python dict lookup;
keys are unique after JSON parsing, so first match is the match). -/
def jlookup (fs : JFields) (k : String) : Option JVal :=
  match fs with
  | .nil => none
  | .cons k' v rest => if k' = k then some v else jlookup rest k

/-- Python `d.get(k, default)` where `d` is the Python value `v`: returns
`none` (an `AttributeError` propagates) when `v` is not a dict, the stored
value when the key is present, and `default` otherwise.  Python `d.get(k)`
is `jgetD v k .null`. -/
def jgetD (v : JVal) (k : String) (d : JVal) : Option JVal :=
  match v with
  | .obj fs => some ((jlookup fs k).getD d)
  | _ => none

/-- Python `v == s` for a string literal `s`: true exactly when `v` is that
string (comparisons of `None`, numbers, bools or dicts against a `str` are
`False` in Python). -/
def isStr (v : JVal) (s : String) : Bool :=
  match v with
  | .str t => t == s
  | _ => false

mutual
/-- Python `str(v)` as used by f-string interpolation: `None ↦ "None"`,
strings unquoted, dicts printed in `repr` form. -/
def pyStr (v : JVal) : String :=
  match v with
  | .null => "None"
  | .bool b => cond b "True" "False"
  | .num n => toString n
  | .str s => s
  | .obj fs => "\x7b" ++ pyReprFields fs ++ "\x7d"

/-- Python `repr(v)`, used for values nested inside a printed dict.
String escaping inside `repr` is not modelled beyond quoting. -/
def pyRepr (v : JVal) : String :=
  match v with
  | .null => "None"
  | .bool b => cond b "True" "False"
  | .num n => toString n
  | .str s => "'" ++ s ++ "'"
  | .obj fs => "\x7b" ++ pyReprFields fs ++ "\x7d"

/-- Field list of a printed Python dict. -/
def pyReprFields (fs : JFields) : String :=
  match fs with
  | .nil => ""
  | .cons k v .nil => "'" ++ k ++ "': " ++ pyRepr v
  | .cons k v rest => "'" ++ k ++ "': " ++ pyRepr v ++ ", " ++ pyReprFields rest
end

/-- Result of one HTTP booking call as seen by `make_booking`'s `try` block:
either some exception was raised by `requests.post` or `r.json()`
(timeout, connection error, non-JSON body), or a parsed JSON body. -/
inductive HttpResp where
  | exn : HttpResp
  | json (v : JVal) : HttpResp

/-- The value `make_booking` stores into `result[key]`:
`{"success": ..., "facUserId": ...}`. -/
structure Outcome where
  success : Bool
  facUserId : JVal

/-- Outcome of one `make_booking` run plus how many times the reservation
client (`requests.post` on the booking URL) was actually invoked. -/
structure AttemptResult where
  outcome : Outcome
  clientCalls : Nat

/-- Static per-flat data of the script (`flats_info` values). -/
structure FlatInfo where
  flat_number : String
  cookie_env : String
  display : String

/-- Source lines 33-39: flat number, cookie env variable, display name. -/
def flats_info : List (String × FlatInfo) :=
  [ ("Flat_Y", ⟨"1711676", "FLAT_Y", "Yuvi"⟩)
  , ("Flat_D", ⟨"1711772", "FLAT_D", "Dev"⟩)
  , ("Flat_SD", ⟨"1711056", "FLAT_SD", "Sadu"⟩)
  , ("Flat_M", ⟨"1711772", "FLAT_M", "Manoj"⟩)
  , ("Flat_SY", ⟨"1711289", "FLAT_SY", "Sanjay"⟩) ]

/-- Source line 42: `ATTEMPTS_PER_SLOT = 3`.  The constant is declared in the
script but no code path reads it. -/
def ATTEMPTS_PER_SLOT : Nat := 3

/-- Source line 43: `GAP_BETWEEN_ATTEMPTS = 0.05` (50 ms).  Also never read. -/
def GAP_BETWEEN_ATTEMPTS : ℚ := 5 / 100

/-- Python truthiness of an `os.getenv` result (`if not cookie`): `None` and
the empty string are falsy. -/
def cookieTruthy : Option String → Bool
  | none => false
  | some s => !(s == "")

/-- Exact success marker compared against the response's `message` field. -/
def successMessage : String := "Amenity has been Reserved"

/-- Body of `make_booking`'s `try` block after `r.json()` succeeded with
value `v` (source lines 86-89):
`success = data.get("message") == "Amenity has been Reserved"`,
`fac_id = data.get("data", {}).get("facUserId") if success else None`.
`none` means an exception was raised inside the block (non-dict `data`,
or the `"data"` field holding a non-dict value while `success` is true). -/
def parseResponse (v : JVal) : Option Outcome :=
  match jgetD v "message" .null with
  | none => none
  | some msg =>
    if isStr msg successMessage then
      match jgetD v "data" (.obj .nil) with
      | none => none
      | some dataObj =>
        match jgetD dataObj "facUserId" .null with
        | none => none
        | some fac => some ⟨true, fac⟩
    else
      some ⟨false, .null⟩

/-- Source lines 67-91, `make_booking(api_url, booking_date, flat_ref, slot,
result, key)`.  The write `result[key] = ...` is modelled as the returned
`AttemptResult`; `none` models the `KeyError` raised by
`flats_info[flat_ref]` for an unknown flat, which escapes the function (the
bare `except:` only wraps the network call).  With a falsy cookie the
function returns a failed outcome without touching the network; otherwise it
performs exactly one client call and the `except:` handler converts every
raised error of the call/parse into a failed outcome. -/
def make_booking (env : String → Option String) (flat_ref : String)
    (resp : HttpResp) : Option AttemptResult :=
  match flats_info.lookup flat_ref with
  | none => none
  | some fi =>
    let cookie := env fi.cookie_env
    if cookieTruthy cookie then
      match resp with
      | .exn => some ⟨⟨false, .null⟩, 1⟩
      | .json v => some ⟨(parseResponse v).getD ⟨false, .null⟩, 1⟩
    else
      some ⟨⟨false, .null⟩, 0⟩

/-- Per-thread bookkeeping of `try_slot_pair`'s loop
`for idx, (flat, slot) in enumerate(zip(flats_pair, slots_pair), 1)`:
one entry per spawned thread, carrying its dict key and the outcome the
thread wrote (`none` when the thread died on `KeyError` and wrote nothing). -/
def spawnThreads (env : String → Option String) (resp : Nat → HttpResp) :
    List (String × String) → Nat → List (Nat × Option Outcome)
  | [], _ => []
  | (flat, _slot) :: rest, k =>
    (k, (make_booking env flat (resp k)).map (·.outcome))
      :: spawnThreads env resp rest (k + 1)

/-- Observable behaviour of one `try_slot_pair` call: the keys of the threads
spawned (in spawn order), the keys joined (in join order), and the final
`result` dict as an association list. -/
structure PairRunResult where
  spawned : List Nat
  joined : List Nat
  result : List (Nat × Outcome)

/-- Source lines 93-106, `try_slot_pair(api_url, booking_date, flats_pair,
slots_pair)`: spawns one thread per `(flat, slot)` pair of the zip, keyed
from 1, then joins every spawned thread before returning the shared result
dict.  `resp k` is the network's answer to the call made by thread `k`. -/
def try_slot_pair (env : String → Option String) (resp : Nat → HttpResp)
    (flats_pair slots_pair : List String) : PairRunResult :=
  let ts := spawnThreads env resp (flats_pair.zip slots_pair) 1
  { spawned := ts.map (·.1)
  , joined := ts.map (·.1)
  , result := ts.filterMap (fun kr => kr.2.map (fun o => (kr.1, o))) }

/-- Calendar date in the proleptic Gregorian calendar used by Python's
`datetime.date` (year ≥ 1). -/
structure Date where
  year : Nat
  month : Nat
  day : Nat

/-- Gregorian leap-year rule. -/
def isLeap (y : Nat) : Bool :=
  y % 4 == 0 && (y % 100 != 0 || y % 400 == 0)

/-- Length of month `m` of year `y`. -/
def daysInMonth (y m : Nat) : Nat :=
  if m = 2 then (if isLeap y then 29 else 28)
  else if m = 4 ∨ m = 6 ∨ m = 9 ∨ m = 11 then 30
  else 31

/-- Successor day of a calendar date. -/
def nextDay (d : Date) : Date :=
  if d.day < daysInMonth d.year d.month then ⟨d.year, d.month, d.day + 1⟩
  else if d.month < 12 then ⟨d.year, d.month + 1, 1⟩
  else ⟨d.year + 1, 1, 1⟩

/-- Addition of `timedelta(days=n)` to an IST-aware datetime, projected to
its date: IST has a fixed UTC offset (no DST), so adding `n` days advances
the calendar date by exactly `n` successor steps. -/
def addDays (d : Date) : Nat → Date
  | 0 => d
  | n + 1 => addDays (nextDay d) n

/-- Days in all years strictly before year `y` (Gregorian). -/
def daysBeforeYear (y : Nat) : Nat :=
  365 * (y - 1) + ((y - 1) / 4 + (y - 1) / 400 - (y - 1) / 100)

/-- Days in year `y` strictly before month `m`. -/
def daysBeforeMonth (y m : Nat) : Nat :=
  [0, 31, 59, 90, 120, 151, 181, 212, 243, 273, 304, 334].getD (m - 1) 0
    + (if 2 < m ∧ isLeap y then 1 else 0)

/-- Python `date.toordinal()`: day 1 is 0001-01-01. -/
def toOrdinal (d : Date) : Nat :=
  daysBeforeYear d.year + daysBeforeMonth d.year d.month + d.day

/-- English weekday names in Python `weekday()` order (Monday = 0), the
values produced by `strftime("%A")` in the C locale. -/
def weekNames : List String :=
  ["Monday", "Tuesday", "Wednesday", "Thursday", "Friday", "Saturday", "Sunday"]

/-- Weekday name of a date, anchored at 0001-01-01 being a Monday
(so `strftime("%A")`). -/
def weekdayName (d : Date) : String :=
  weekNames.getD ((toOrdinal d + 6) % 7) ""

/-- Zero-padding to two digits, as `strftime` does for `%d` and `%m`. -/
def pad2 (n : Nat) : String :=
  if n < 10 then "0" ++ toString n else toString n

/-- Zero-padding to four digits, as `strftime("%Y")` does on the script's
platform. -/
def pad4 (n : Nat) : String :=
  if n < 10 then "000" ++ toString n
  else if n < 100 then "00" ++ toString n
  else if n < 1000 then "0" ++ toString n
  else toString n

/-- `strftime("%d-%m-%Y")`. -/
def fmtDate (d : Date) : String :=
  pad2 d.day ++ "-" ++ pad2 d.month ++ "-" ++ pad4 d.year

/-- Configuration read from `booking_config.json` (source lines 139-143).
`facilityId` and `api_url` only travel into the network payload and are
absorbed into the response oracle.  `eveningSlots` is `slots_cfg.get("evening")`
(absent key gives `none`); the `weekday_flat_map` and `slots["morning"]`
accesses of a well-formed config are carried directly. -/
structure Config where
  weekday_flat_map : List (String × List String)
  morningSlots : List String
  eveningSlots : Option (List String)

/-- Result of `json.load(open(CONFIG_PATH))` in `main`'s first `try` block. -/
inductive ConfigLoad where
  | err : ConfigLoad
  | ok (cfg : Config) : ConfigLoad

/-- One entry of the `booked_info` list:
`(slot, flat, facUserId-or-"FAILED")`. -/
structure BookedEntry where
  slot : String
  flat : String
  fac : JVal

/-- Arguments of one `try_slot_pair` invocation made by `main`, recorded so
that theorems can speak about which booking calls a run performs. -/
structure PairCall where
  flats : List String
  slots : List String

/-- Terminal state of one `main` run.  The message-carrying constructors
store the exact text handed to `send_telegram` (and, for `report`, also to
`write_log`); `crashed` models an exception escaping `main`, caught by the
`__main__` wrapper. -/
inductive RunOutcome where
  | configError : RunOutcome
  | noBooking (msg : String) : RunOutcome
  | cookieMissing (msg : String) : RunOutcome
  | crashed : RunOutcome
  | report (bookedInfo : List BookedEntry) (finalMsg : String) : RunOutcome

/-- Behaviour of one `main` run: its terminal outcome plus the list of
`try_slot_pair` invocations it performed, in order. -/
structure RunTrace where
  outcome : RunOutcome
  pairCalls : List PairCall

/-- Extracts the final `booked_info` of a completed run, if the run reached
the reporting stage. -/
def RunOutcome.bookedInfo? : RunOutcome → Option (List BookedEntry)
  | .report info _ => some info
  | _ => none

/-- Result of the cookie-checking loop (source lines 158-161). -/
inductive CookieCheck where
  | ok : CookieCheck
  | missing (display : String) : CookieCheck
  | keyError : CookieCheck

/-- Source lines 158-161: walk the day's pair in order and abort on the first
flat whose cookie env variable is unset (or empty, Python falsiness);
an unknown flat raises `KeyError` out of `main`. -/
def checkCookies (env : String → Option String) : List String → CookieCheck
  | [] => .ok
  | f :: rest =>
    match flats_info.lookup f with
    | none => .keyError
    | some fi =>
      if cookieTruthy (env fi.cookie_env) then checkCookies env rest
      else .missing fi.display

/-- Source lines 167-172: build `booked_info` from the morning result dict,
`for idx, flat in enumerate(flats_pair, 1)`.  A missing dict key (a thread
died without writing) or a short morning-slot list raises out of `main`. -/
def buildBookedInfo (morningSlots : List String)
    (result : List (Nat × Outcome)) : List String → Nat → Option (List BookedEntry)
  | [], _ => some []
  | flat :: rest, idx =>
    match result.lookup idx, morningSlots.get? (idx - 1) with
    | some r, some slot =>
      (buildBookedInfo morningSlots result rest (idx + 1)).map
        (fun tail =>
          (if r.success then (⟨slot, flat, r.facUserId⟩ : BookedEntry)
           else ⟨slot, flat, .str "FAILED"⟩) :: tail)
    | _, _ => none

/-- Source lines 177-182, the evening-retry loop
`for i, (slot, flat, fac_id) in enumerate(booked_info)`: each entry whose
`fac_id` equals the string `"FAILED"` triggers a fresh `try_slot_pair` on the
single flat and its evening slot `evening_slots[i]`, and is replaced only
when that retry succeeds.  Mutating `booked_info[i]` in place does not
disturb the iteration, so the loop is a fold over the list with its running
index.  Returns the calls made (even when a later step raises) and
`none` for the final list when the loop raises (`IndexError` on a short
evening list, or `res_evening[1]` missing). `eresp i` answers the retry call
made for entry `i`. -/
def eveningRetry (env : String → Option String) (eresp : Nat → HttpResp)
    (evening_slots : List String) :
    List BookedEntry → Nat → List PairCall × Option (List BookedEntry)
  | [], _ => ([], some [])
  | e :: rest, i =>
    if isStr e.fac "FAILED" then
      match evening_slots.get? i with
      | none => ([], none)
      | some slot =>
        let pr := try_slot_pair env (fun _ => eresp i) [e.flat] [slot]
        let call : PairCall := ⟨[e.flat], [slot]⟩
        match pr.result.lookup 1 with
        | none => ([call], none)
        | some r2 =>
          let e2 : BookedEntry :=
            if r2.success then ⟨slot, e.flat, r2.facUserId⟩ else e
          let (cs, rest2) := eveningRetry env eresp evening_slots rest (i + 1)
          (call :: cs, rest2.map (e2 :: ·))
    else
      let (cs, rest2) := eveningRetry env eresp evening_slots rest (i + 1)
      (cs, rest2.map (e :: ·))

/-- Source line 189: the per-entry report line.  `none` models the `KeyError`
of the `flats_info[flat]` lookup. -/
def mkLine (e : BookedEntry) : Option String :=
  (flats_info.lookup e.flat).map (fun fi =>
    if isStr e.fac "FAILED" then
      e.slot ++ " → " ++ fi.display ++ " → FAILED"
    else
      e.slot ++ " → " ++ fi.display ++ " → facUserId: " ++ pyStr e.fac)

/-- Source lines 188-193: split the report lines into `success_lines` and
`fail_lines`, preserving order (an entry is a success line exactly when its
`fac_id` is not the string `"FAILED"`). -/
def classify : List BookedEntry → Option (List String × List String)
  | [] => some ([], [])
  | e :: rest =>
    match mkLine e, classify rest with
    | some line, some (s, f) =>
      if isStr e.fac "FAILED" then some (s, line :: f) else some (line :: s, f)
    | _, _ => none

/-- Source lines 185-202: assemble `final_msg`. -/
def buildMsg (booking_date : String) (info : List BookedEntry) : Option String :=
  (classify info).map (fun sf =>
    let msg_lines := ["Date: " ++ booking_date]
    let msg_lines := if sf.1.isEmpty then msg_lines
      else msg_lines ++ ["\n✅ Booked:"] ++ sf.1
    let msg_lines := if sf.2.isEmpty then msg_lines
      else msg_lines ++ ["\n❌ Failed:"] ++ sf.2
    String.intercalate "\n" msg_lines)

/-- External world of one run: the environment variables and the network's
answers.  `morningResp k` answers the call of morning thread `k`;
`eveningResp i` answers the evening retry made for `booked_info` entry `i`. -/
structure World where
  env : String → Option String
  morningResp : Nat → HttpResp
  eveningResp : Nat → HttpResp

/-- Source lines 132-204, `main()` (the name `main` is reserved in Lean for the IO entry point, hence `scheduler_main`), as a function of the loaded config, the
external world and today's IST date.  The release-gate call
`wait_until_6am_or_run_now()` sits between the cookie check and the morning
call; it only delays and is modelled separately.  Telegram delivery and log
writing swallow their own errors and never influence the outcome, so the
embedding records just the message text. -/
def scheduler_main (load : ConfigLoad) (w : World) (today : Date) : RunTrace :=
  match load with
  | .err => ⟨.configError, []⟩
  | .ok cfg =>
    let booking_date_obj := addDays today 2
    let booking_date := fmtDate booking_date_obj
    let booking_day := weekdayName booking_date_obj
    match cfg.weekday_flat_map.lookup booking_day with
    | none =>
      ⟨.noBooking ("Date: " ++ booking_date ++ "\nNo booking scheduled for "
         ++ booking_day ++ "."), []⟩
    | some flats_pair =>
      match checkCookies w.env flats_pair with
      | .keyError => ⟨.crashed, []⟩
      | .missing display =>
        ⟨.cookieMissing ("Date: " ++ booking_date ++ "\n❌ COOKIE missing for "
           ++ display), []⟩
      | .ok =>
        let pr := try_slot_pair w.env w.morningResp flats_pair cfg.morningSlots
        let morningCall : PairCall := ⟨flats_pair, cfg.morningSlots⟩
        match buildBookedInfo cfg.morningSlots pr.result flats_pair 1 with
        | none => ⟨.crashed, [morningCall]⟩
        | some booked_info =>
          let (eveCalls, booked_info2) :=
            match cfg.eveningSlots with
            | none => ([], some booked_info)
            | some es =>
              if es.isEmpty then ([], some booked_info)
              else eveningRetry w.env w.eveningResp es booked_info 0
          match booked_info2 with
          | none => ⟨.crashed, morningCall :: eveCalls⟩
          | some info =>
            match buildMsg booking_date info with
            | none => ⟨.crashed, morningCall :: eveCalls⟩
            | some final_msg =>
              ⟨.report info final_msg, morningCall :: eveCalls⟩

/-- Release instant computed by `wait_until_6am_or_run_now` (source line 110):
`now.replace(hour=6, minute=0, second=2, microsecond=0)`, i.e. 06:00:02 of
the current day.  Times are modelled as integer milliseconds since local
midnight — exact for every constant the script uses (0.5 s, 0.001 s, 2.0 s
and the 06:00:02 target are all whole milliseconds). -/
def targetMillis : Int := (6 * 3600 + 2) * 1000

/-- Observable behaviour of one `wait_until_6am_or_run_now` call: the first
clock read, the reads and the sleep durations (in milliseconds) of the
coarse phase-1 loop, those of the fine phase-2 loop, and the clock value at
which the function unblocked. -/
structure WaitTrace where
  initialRead : Int
  reads1 : List Int
  sleeps1 : List Int
  reads2 : List Int
  sleeps2 : List Int
  finalRead : Int

/-- Source lines 117-122, the coarse loop: re-read the clock, break once at
most 2 seconds remain, otherwise `time.sleep(0.5)` (500 ms) and loop.
`clock i` is the value of the `i`-th `now_ist()` call of the whole wait; the
loop starts at read index `i`.  Fuel bounds the unrolling; `none` means the
fuel ran out before the loop broke.  Returns the reads (the last one is the
breaking read), the sleeps, and the next unused read index. -/
def waitPhase1 (clock : Nat → Int) :
    Nat → Nat → Option (List Int × List Int × Nat)
  | 0, _ => none
  | fuel + 1, i =>
    let now := clock i
    if targetMillis - now ≤ 2000 then some ([now], [], i + 1)
    else
      match waitPhase1 clock fuel (i + 1) with
      | none => none
      | some (rs, ss, j) => some (now :: rs, (500 : Int) :: ss, j)

/-- Source lines 125-126, the precision loop:
`while now_ist() < target: time.sleep(0.001)` (1 ms).  Returns the reads
(the last one is the first read at or past the target) and the sleeps. -/
def waitPhase2 (clock : Nat → Int) :
    Nat → Nat → Option (List Int × List Int)
  | 0, _ => none
  | fuel + 1, i =>
    let now := clock i
    if now < targetMillis then
      match waitPhase2 clock fuel (i + 1) with
      | none => none
      | some (rs, ss) => some (now :: rs, (1 : Int) :: ss)
    else some ([now], [])

/-- Source lines 108-126, `wait_until_6am_or_run_now()`: return immediately
when the first read is already at or past 06:00:02 (`if now >= target`),
otherwise run the coarse loop and then the precision loop.  The wall clock
is abstracted as the oracle `clock`; the function itself never writes it. -/
def wait_until_6am_or_run_now (fuel : Nat) (clock : Nat → Int) :
    Option WaitTrace :=
  let now := clock 0
  if targetMillis ≤ now then some ⟨now, [], [], [], [], now⟩
  else
    match waitPhase1 clock fuel 1 with
    | none => none
    | some (rs1, ss1, j) =>
      match waitPhase2 clock fuel j with
      | none => none
      | some (rs2, ss2) =>
        some ⟨now, rs1, ss1, rs2, ss2, (rs2.getLast?).getD now⟩

/-! ### Concrete inputs used by witnesses and counterexamples -/

/-- Environment with cookies set for `Flat_Y` and `Flat_D` only. -/
def envW : String → Option String := fun s =>
  if s = "FLAT_Y" ∨ s = "FLAT_D" then some "c" else none

/-- Environment with a cookie set for `Flat_Y` only. -/
def envY : String → Option String := fun s =>
  if s = "FLAT_Y" then some "c" else none

/-- Successful API body carrying a `facUserId`. -/
def okBody (fac : JVal) : JVal :=
  .obj (.cons "message" (.str successMessage)
    (.cons "data" (.obj (.cons "facUserId" fac .nil)) .nil))

/-- Config mapping Wednesday to the `Flat_Y`/`Flat_D` pair, with morning and
evening slot lists. -/
def cfgW : Config :=
  { weekday_flat_map := [("Wednesday", ["Flat_Y", "Flat_D"])]
  , morningSlots := ["m1", "m2"]
  , eveningSlots := some ["e1", "e2"] }

/-- World in which the morning call of thread 1 succeeds with id `A1`, the
morning call of thread 2 fails, and the evening retry for entry 1 succeeds
with id `B2`. -/
def worldW : World :=
  { env := envW
  , morningResp := fun k => if k = 1 then .json (okBody (.str "A1")) else .exn
  , eveningResp := fun i => if i = 1 then .json (okBody (.str "B2")) else .exn }

/-- Monday 2026-10-12 (IST), a concrete run day whose booking date two days
later falls on the mapped Wednesday. -/
def todayW : Date := ⟨2026, 10, 12⟩

/-- Clock oracle that advances one second (1000 ms) per read, starting 6
seconds before the 06:00:02 release instant. -/
def clockC : Nat → Int := fun i => 21596000 + 1000 * i

/-! ### Helper lemmas -/

/-- `make_booking` never raises once the flat is known: it always hands back
a result, and the reservation client is invoked at most once. -/
theorem make_booking_total (env : String → Option String) (flat : String)
    (fi : FlatInfo) (r : HttpResp) (h : flats_info.lookup flat = some fi) :
    ∃ ar, make_booking env flat r = some ar ∧ ar.clientCalls ≤ 1 := by
  unfold make_booking
  rw [h]
  by_cases hc : cookieTruthy (env fi.cookie_env)
  · cases r <;> simp [hc]
  · simp [hc]

/-- Keys of the thread records spawned by `spawnThreads`: consecutive
integers starting at `k`. -/
theorem spawnThreads_keys (env : String → Option String)
    (resp : Nat → HttpResp) (ps : List (String × String)) (k : Nat) :
    (spawnThreads env resp ps k).map (·.1) = List.range' k ps.length := by
  induction ps generalizing k with
  | nil => simp [spawnThreads]
  | cons p rest ih =>
    obtain ⟨flat, slot⟩ := p
    simp [spawnThreads, List.range'_succ, ih]

/-- When every flat of the zipped pairs is a known flat, every spawned
thread writes its outcome, so the result dict has exactly the spawned keys. -/
theorem spawnThreads_result_keys (env : String → Option String)
    (resp : Nat → HttpResp) (ps : List (String × String)) (k : Nat)
    (h : ∀ p ∈ ps, (flats_info.lookup p.1).isSome) :
    ((spawnThreads env resp ps k).filterMap
        (fun kr => kr.2.map (fun o => (kr.1, o)))).map (·.1)
      = (spawnThreads env resp ps k).map (·.1) := by
  induction ps generalizing k with
  | nil => simp [spawnThreads]
  | cons p rest ih =>
    obtain ⟨flat, slot⟩ := p
    have hf : (flats_info.lookup flat).isSome := h (flat, slot) (by simp)
    obtain ⟨fi, hfi⟩ := Option.isSome_iff_exists.mp hf
    obtain ⟨ar, har, -⟩ := make_booking_total env flat fi (resp k) hfi
    simp [spawnThreads, har, ih _ (fun q hq => h q (by simp [hq]))]

/-- Unfolding of Python string comparison against a literal. -/
theorem isStr_iff (v : JVal) (s : String) : isStr v s = true ↔ v = .str s := by
  cases v <;> simp [isStr]

/-! ### Claims -/

/-- C2: the script declares `ATTEMPTS_PER_SLOT = 3` and a 50 ms
`GAP_BETWEEN_ATTEMPTS`, but `make_booking` contains no retry loop at all:
whatever the response, the reservation client is invoked at most once per
attempt operation, and on the concrete failing input (cookie present,
transport error) it gives up after exactly one call with a failed outcome. -/
theorem C2_code_bug :
    ATTEMPTS_PER_SLOT = 3 ∧ GAP_BETWEEN_ATTEMPTS = 5 / 100 ∧
    (∀ (env : String → Option String) (flat : String) (r : HttpResp)
       (ar : AttemptResult), make_booking env flat r = some ar →
         ar.clientCalls ≤ 1) ∧
    make_booking envW "Flat_Y" .exn = some ⟨⟨false, .null⟩, 1⟩ := by
  refine ⟨rfl, rfl, ?_, rfl⟩
  intro env flat r ar h
  unfold make_booking at h
  cases hl : flats_info.lookup flat with
  | none => rw [hl] at h; exact absurd h (by simp)
  | some fi =>
    rw [hl] at h
    by_cases hc : cookieTruthy (env fi.cookie_env)
    · cases r <;> simp [hc] at h <;> simp [← h]
    · simp [hc] at h
      simp [← h]

/-- C2 witness: instantiation of the at-most-one-call bound at the concrete
failing input. -/
theorem C2_witness :
    (⟨⟨false, JVal.null⟩, 1⟩ : AttemptResult).clientCalls ≤ 1 :=
  C2_code_bug.2.2.1 envW "Flat_Y" .exn ⟨⟨false, .null⟩, 1⟩ rfl

/-- C3 counterexample: a response whose `message` field is exactly the
success literal but whose `data` field is JSON `null` yields
`succeeded = false` — the branch `data.get("data", {}).get("facUserId")`
raises `AttributeError`, which the bare `except:` converts into a failed
outcome.  So "succeeded iff the message equals the literal" is false. -/
theorem C3_counterexample :
    jgetD (.obj (.cons "message" (.str successMessage) (.cons "data" .null .nil)))
        "message" .null = some (.str successMessage)
    ∧ (make_booking envW "Flat_Y"
        (.json (.obj (.cons "message" (.str successMessage)
          (.cons "data" .null .nil))))).map (fun ar => ar.outcome.success)
      = some false :=
  ⟨rfl, rfl⟩

/-- C3 amended: for a known flat with a truthy cookie, the attempt always
returns an outcome (nothing propagates), and that outcome's `succeeded` flag
is true iff the response is a JSON object whose `message` field equals the
exact literal `"Amenity has been Reserved"` AND whose `data` field, when
present, is itself a JSON object; any other message, non-object body,
non-JSON body, transport exception — or a success message with a non-object
`data` field — yields `succeeded = false`. -/
theorem C3_amended (env : String → Option String) (flat : String)
    (fi : FlatInfo) (r : HttpResp) (h : flats_info.lookup flat = some fi)
    (hc : cookieTruthy (env fi.cookie_env) = true) :
    ∃ ar, make_booking env flat r = some ar ∧
      (ar.outcome.success = true ↔
        ∃ fs, r = .json (.obj fs)
          ∧ jlookup fs "message" = some (.str successMessage)
          ∧ (jlookup fs "data" = none
             ∨ ∃ gs, jlookup fs "data" = some (.obj gs))) := by
  unfold make_booking
  rw [h]
  simp only [hc, if_true]
  cases r with
  | exn => exact ⟨_, rfl, by simp⟩
  | json v =>
    refine ⟨_, rfl, ?_⟩
    cases v with
    | null => simp [parseResponse, jgetD]
    | bool b => simp [parseResponse, jgetD]
    | num n => simp [parseResponse, jgetD]
    | str s => simp [parseResponse, jgetD]
    | obj fs =>
      cases hm : jlookup fs "message" with
      | none => simp [parseResponse, jgetD, hm, isStr]
      | some m =>
        by_cases him : isStr m successMessage
        · have hmv : m = .str successMessage := (isStr_iff m successMessage).mp him
          subst hmv
          cases hd : jlookup fs "data" with
          | none => simp [parseResponse, jgetD, hm, hd, isStr]
          | some dv =>
            cases dv <;> simp [parseResponse, jgetD, hm, hd, isStr]
        · have hmv : m ≠ .str successMessage :=
            fun hh => him ((isStr_iff m successMessage).mpr hh)
          simp [parseResponse, jgetD, hm, him, hmv]

/-- C3 witness: the amended characterization applied at a concrete
well-formed success response. -/
theorem C3_witness :
    ∃ ar, make_booking envW "Flat_Y" (.json (okBody (.str "A1"))) = some ar ∧
      (ar.outcome.success = true ↔
        ∃ fs, (HttpResp.json (okBody (.str "A1"))) = .json (.obj fs)
          ∧ jlookup fs "message" = some (.str successMessage)
          ∧ (jlookup fs "data" = none
             ∨ ∃ gs, jlookup fs "data" = some (.obj gs))) :=
  C3_amended envW "Flat_Y" ⟨"1711676", "FLAT_Y", "Yuvi"⟩
    (.json (okBody (.str "A1"))) rfl rfl

/-- C5: when the booking date's weekday is absent from the weekday map, the
run stops with the "no booking scheduled" notification and performs no
`try_slot_pair` invocation (hence no booking network call). -/
theorem C5_theorem (cfg : Config) (w : World) (today : Date)
    (h : cfg.weekday_flat_map.lookup (weekdayName (addDays today 2)) = none) :
    scheduler_main (.ok cfg) w today =
      ⟨.noBooking ("Date: " ++ fmtDate (addDays today 2)
         ++ "\nNo booking scheduled for " ++ weekdayName (addDays today 2)
         ++ "."), []⟩ := by
  simp [scheduler_main, h]

/-- C5 witness: a Tuesday run books for Thursday, which the concrete config
does not map, so the run reports and makes no calls. -/
theorem C5_witness :
    scheduler_main (.ok cfgW) worldW ⟨2026, 10, 13⟩ =
      ⟨.noBooking "Date: 15-10-2026\nNo booking scheduled for Thursday.", []⟩ :=
  C5_theorem cfgW worldW ⟨2026, 10, 13⟩ rfl

/-- World used for the missing-cookie witness: only `FLAT_Y` is set and every
network call would fail (none happens). -/
def worldY : World :=
  { env := envY, morningResp := fun _ => .exn, eveningResp := fun _ => .exn }

/-- Cookie-check loop: when every flat of the list is known and some flat's
cookie is falsy, the loop stops at the first such flat and reports its
display name. -/
theorem checkCookies_missing (env : String → Option String) (l : List String)
    (hknown : ∀ f ∈ l, (flats_info.lookup f).isSome)
    (hmiss : ∃ f ∈ l, ∃ fi, flats_info.lookup f = some fi
       ∧ cookieTruthy (env fi.cookie_env) = false) :
    ∃ f ∈ l, ∃ fi, flats_info.lookup f = some fi
      ∧ cookieTruthy (env fi.cookie_env) = false
      ∧ checkCookies env l = .missing fi.display := by
  induction l with
  | nil => simp at hmiss
  | cons f0 rest ih =>
    have h0 : (flats_info.lookup f0).isSome := hknown f0 (by simp)
    obtain ⟨fi0, hfi0⟩ := Option.isSome_iff_exists.mp h0
    by_cases hc : cookieTruthy (env fi0.cookie_env) = true
    · have hmiss' : ∃ f ∈ rest, ∃ fi, flats_info.lookup f = some fi
          ∧ cookieTruthy (env fi.cookie_env) = false := by
        obtain ⟨f, hf, fi, hfi, hct⟩ := hmiss
        rcases List.mem_cons.mp hf with rfl | hfr
        · rw [hfi0] at hfi
          cases hfi
          rw [hc] at hct
          exact absurd hct (by simp)
        · exact ⟨f, hfr, fi, hfi, hct⟩
      obtain ⟨f, hf, fi, hfi, hct, hcc⟩ :=
        ih (fun g hg => hknown g (by simp [hg])) hmiss'
      refine ⟨f, by simp [hf], fi, hfi, hct, ?_⟩
      simp [checkCookies, hfi0, hc, hcc]
    · refine ⟨f0, by simp, fi0, hfi0, by simpa using hc, ?_⟩
      simp [checkCookies, hfi0, hc]

/-- C4: if the resolved pair contains a flat whose cookie env variable is
unset (or empty), the run aborts before any `try_slot_pair` invocation — so
no booking HTTP call of any kind — and the abort notification names the
affected flat's display name; independently, a falsy cookie inside
`make_booking` produces a failed outcome with zero reservation-client calls. -/
theorem C4_theorem (cfg : Config) (w : World) (today : Date)
    (pair : List String)
    (hpair : cfg.weekday_flat_map.lookup (weekdayName (addDays today 2))
       = some pair)
    (hknown : ∀ f ∈ pair, (flats_info.lookup f).isSome)
    (hmiss : ∃ f ∈ pair, ∃ fi, flats_info.lookup f = some fi
       ∧ cookieTruthy (w.env fi.cookie_env) = false) :
    (∃ f ∈ pair, ∃ fi, flats_info.lookup f = some fi
       ∧ cookieTruthy (w.env fi.cookie_env) = false
       ∧ scheduler_main (.ok cfg) w today =
           ⟨.cookieMissing ("Date: " ++ fmtDate (addDays today 2)
              ++ "\n❌ COOKIE missing for " ++ fi.display), []⟩)
    ∧ (∀ (f : String) (fi : FlatInfo) (r : HttpResp),
         flats_info.lookup f = some fi →
         cookieTruthy (w.env fi.cookie_env) = false →
         make_booking w.env f r = some ⟨⟨false, .null⟩, 0⟩) := by
  constructor
  · obtain ⟨f, hf, fi, hfi, hct, hcc⟩ :=
      checkCookies_missing w.env pair hknown hmiss
    refine ⟨f, hf, fi, hfi, hct, ?_⟩
    simp [scheduler_main, hpair, hcc]
  · intro f fi r hfi hct
    unfold make_booking
    rw [hfi]
    simp [hct]

/-- C4 witness: with only `FLAT_Y` set, the Wednesday pair aborts naming
`Dev` (the `Flat_D` display name) and no pair call happens. -/
theorem C4_witness :
    (∃ f ∈ ["Flat_Y", "Flat_D"], ∃ fi, flats_info.lookup f = some fi
       ∧ cookieTruthy (worldY.env fi.cookie_env) = false
       ∧ scheduler_main (.ok cfgW) worldY todayW =
           ⟨.cookieMissing ("Date: " ++ fmtDate (addDays todayW 2)
              ++ "\n❌ COOKIE missing for " ++ fi.display), []⟩)
    ∧ (∀ (f : String) (fi : FlatInfo) (r : HttpResp),
         flats_info.lookup f = some fi →
         cookieTruthy (worldY.env fi.cookie_env) = false →
         make_booking worldY.env f r = some ⟨⟨false, .null⟩, 0⟩) :=
  C4_theorem cfgW worldY todayW ["Flat_Y", "Flat_D"] rfl (by decide)
    ⟨"Flat_D", by simp, ⟨"1711772", "FLAT_D", "Dev"⟩, rfl, rfl⟩

/-- C7 amended: `try_slot_pair` spawns one thread per `(flat, slot)` pair of
the zip of its two list arguments — exactly two only when both lists have
two elements — joins every spawned thread before returning, and (for known
flats) returns one outcome per spawned thread regardless of individual
success. -/
theorem C7_amended (env : String → Option String) (resp : Nat → HttpResp)
    (flats_pair slots_pair : List String) :
    (try_slot_pair env resp flats_pair slots_pair).joined =
      (try_slot_pair env resp flats_pair slots_pair).spawned
    ∧ (try_slot_pair env resp flats_pair slots_pair).spawned =
        List.range' 1 (flats_pair.zip slots_pair).length
    ∧ (flats_pair.length = 2 → slots_pair.length = 2 →
        (try_slot_pair env resp flats_pair slots_pair).spawned = [1, 2])
    ∧ ((∀ f ∈ flats_pair, (flats_info.lookup f).isSome) →
        (try_slot_pair env resp flats_pair slots_pair).result.map (·.1) =
          (try_slot_pair env resp flats_pair slots_pair).spawned) := by
  refine ⟨rfl, spawnThreads_keys env resp _ 1, ?_, ?_⟩
  · intro h1 h2
    show (spawnThreads env resp (flats_pair.zip slots_pair) 1).map (·.1) = _
    rw [spawnThreads_keys, List.length_zip, h1, h2]
    rfl
  · intro hk
    exact spawnThreads_result_keys env resp _ 1
      (fun p hp => hk p.1 (List.of_mem_zip hp).1)

/-- C7 counterexample: the run of `worldW` really does invoke the pair
booker with single-element lists (the evening retry for the failed flat),
and that invocation spawns exactly one thread, not two. -/
theorem C7_counterexample :
    (scheduler_main (.ok cfgW) worldW todayW).pairCalls.get? 1 =
      some ⟨["Flat_D"], ["e2"]⟩
    ∧ (try_slot_pair envW (fun _ => worldW.eveningResp 1)
        ["Flat_D"] ["e2"]).spawned = [1] :=
  ⟨rfl, rfl⟩

/-- C7 witness: the two-element morning invocation spawns threads 1 and 2
and its result carries both outcomes. -/
theorem C7_witness :
    (try_slot_pair envW worldW.morningResp ["Flat_Y", "Flat_D"]
        ["m1", "m2"]).spawned = [1, 2]
    ∧ (try_slot_pair envW worldW.morningResp ["Flat_Y", "Flat_D"]
        ["m1", "m2"]).result.map (·.1) = [1, 2] := by
  have h := C7_amended envW worldW.morningResp ["Flat_Y", "Flat_D"] ["m1", "m2"]
  have h1 := h.2.2.1 rfl rfl
  exact ⟨h1, by rw [h.2.2.2 (by decide), h1]⟩

/-- C10: the booking date every run targets is exactly two calendar days
after the current IST date (two successor-day steps), it is rendered as
zero-padded `DD-MM-YYYY`, and the weekday key used for the resource-pair
lookup is the weekday of that future date — which differs from the current
date's weekday, as the concrete Monday run (booking for Wednesday) shows. -/
theorem C10_theorem :
    (∀ t : Date, addDays t 2 = nextDay (nextDay t))
    ∧ (∀ t : Date, fmtDate (addDays t 2) =
        pad2 (addDays t 2).day ++ "-" ++ pad2 (addDays t 2).month ++ "-"
          ++ pad4 (addDays t 2).year)
    ∧ (∀ (cfg : Config) (w : World) (t : Date),
        cfg.weekday_flat_map.lookup (weekdayName (addDays t 2)) = none →
        scheduler_main (.ok cfg) w t =
          ⟨.noBooking ("Date: " ++ fmtDate (addDays t 2)
             ++ "\nNo booking scheduled for " ++ weekdayName (addDays t 2)
             ++ "."), []⟩)
    ∧ weekdayName todayW ≠ weekdayName (addDays todayW 2) := by
  refine ⟨fun t => rfl, fun t => rfl,
    fun cfg w t h => by simp [scheduler_main, h], ?_⟩
  decide

/-- C10 witness: a Friday run targets Sunday two days later; the date in the
notification is the future date in `DD-MM-YYYY` and the lookup key is the
future weekday. -/
theorem C10_witness :
    scheduler_main (.ok cfgW) worldW ⟨2026, 10, 16⟩ =
      ⟨.noBooking "Date: 18-10-2026\nNo booking scheduled for Sunday.", []⟩ :=
  C10_theorem.2.2.1 cfgW worldW ⟨2026, 10, 16⟩ rfl

/-- C8: the evening-retry loop is frame-safe — it preserves the length of
`booked_info`, and any entry whose `fac_id` is not the failure marker
`"FAILED"` (a morning success, including a `None` reservation id) survives
to the final list completely unchanged: same slot, same flat, same id; only
entries marked `FAILED` can be replaced. -/
theorem C8_theorem (env : String → Option String) (eresp : Nat → HttpResp)
    (es : List String) (info : List BookedEntry) (i : Nat)
    (final : List BookedEntry)
    (h : (eveningRetry env eresp es info i).2 = some final) :
    final.length = info.length
    ∧ ∀ j e, info.get? j = some e → isStr e.fac "FAILED" = false →
        final.get? j = some e := by
  induction info generalizing i final with
  | nil =>
    simp [eveningRetry] at h
    subst h
    simp
  | cons e0 rest ih =>
    by_cases hf : isStr e0.fac "FAILED" = true
    · rw [eveningRetry] at h
      simp only [hf, if_true] at h
      cases hs : es.get? i with
      | none => simp only [hs] at h; simp at h
      | some slot =>
        simp only [hs] at h
        cases hl : (try_slot_pair env (fun _ => eresp i)
            [e0.flat] [slot]).result.lookup 1 with
        | none => simp only [hl] at h; simp at h
        | some r2 =>
          simp only [hl] at h
          cases hrec : (eveningRetry env eresp es rest (i + 1)).2 with
          | none => simp [hrec] at h
          | some fin =>
            rw [hrec] at h
            simp only [Option.map_some'] at h
            cases h
            have ihh := ih (i + 1) fin hrec
            refine ⟨by simpa using ihh.1, ?_⟩
            intro j e hj hne
            cases j with
            | zero =>
              simp at hj
              subst hj
              rw [hf] at hne
              exact absurd hne (by simp)
            | succ j' => simpa using ihh.2 j' e (by simpa using hj) hne
    · have hf' : isStr e0.fac "FAILED" = false := by
        cases hb : isStr e0.fac "FAILED" with
        | true => exact absurd hb hf
        | false => rfl
      rw [eveningRetry] at h
      simp only [hf', Bool.false_eq_true, if_false] at h
      cases hrec : (eveningRetry env eresp es rest (i + 1)).2 with
      | none => simp [hrec] at h
      | some fin =>
        rw [hrec] at h
        simp only [Option.map_some'] at h
        cases h
        have ihh := ih (i + 1) fin hrec
        refine ⟨by simpa using ihh.1, ?_⟩
        intro j e hj hne
        cases j with
        | zero => simpa using hj
        | succ j' => simpa using ihh.2 j' e (by simpa using hj) hne

/-- C8 witness: in the concrete mixed run, the successful `Flat_Y` morning
entry survives the evening pass unchanged. -/
theorem C8_witness :
    ([⟨"m1", "Flat_Y", .str "A1"⟩, ⟨"e2", "Flat_D", .str "B2"⟩] :
        List BookedEntry).length =
      ([⟨"m1", "Flat_Y", .str "A1"⟩, ⟨"m2", "Flat_D", .str "FAILED"⟩] :
        List BookedEntry).length
    ∧ ([⟨"m1", "Flat_Y", .str "A1"⟩, ⟨"e2", "Flat_D", .str "B2"⟩] :
        List BookedEntry).get? 0 = some ⟨"m1", "Flat_Y", .str "A1"⟩ := by
  have h := C8_theorem envW worldW.eveningResp ["e1", "e2"]
    [⟨"m1", "Flat_Y", .str "A1"⟩, ⟨"m2", "Flat_D", .str "FAILED"⟩] 0
    [⟨"m1", "Flat_Y", .str "A1"⟩, ⟨"e2", "Flat_D", .str "B2"⟩] rfl
  exact ⟨h.1, h.2 0 ⟨"m1", "Flat_Y", .str "A1"⟩ rfl rfl⟩

/-- Specification of the amended claim C1's evening behaviour, written from
its words: one single-flat retry call per `FAILED` entry, on that entry's
own evening slot, in entry order; successful entries trigger no call. -/
def eveningCallsSpec (es : List String) :
    List BookedEntry → Nat → List PairCall
  | [], _ => []
  | e :: rest, i =>
    if isStr e.fac "FAILED" then
      ⟨[e.flat], [(es.get? i).getD ""]⟩ :: eveningCallsSpec es rest (i + 1)
    else eveningCallsSpec es rest (i + 1)

/-- C1 amended: the fallback never advances the whole pair — instead, for
every run of the evening phase that completes, the `try_slot_pair` calls it
makes are exactly one single-flat call per `FAILED` entry on that entry's
evening slot (`eveningCallsSpec`), and even on a crashed run every call it
made was a single-flat retry of some `FAILED` entry. -/
theorem C1_amended (env : String → Option String) (eresp : Nat → HttpResp)
    (es : List String) (info : List BookedEntry) (i : Nat) :
    (∀ final, (eveningRetry env eresp es info i).2 = some final →
       (eveningRetry env eresp es info i).1 = eveningCallsSpec es info i)
    ∧ (∀ c ∈ (eveningRetry env eresp es info i).1,
        ∃ e, e ∈ info ∧ isStr e.fac "FAILED" = true
          ∧ ∃ slot, c = ⟨[e.flat], [slot]⟩) := by
  induction info generalizing i with
  | nil => simp [eveningRetry, eveningCallsSpec]
  | cons e0 rest ih =>
    by_cases hf : isStr e0.fac "FAILED" = true
    · rw [eveningRetry, eveningCallsSpec]
      simp only [hf, if_true]
      cases hs : es.get? i with
      | none =>
        simp only [hs]
        constructor
        · intro final hfin
          simp at hfin
        · intro c hc
          simp at hc
      | some slot =>
        simp only [hs]
        cases hl : (try_slot_pair env (fun _ => eresp i)
            [e0.flat] [slot]).result.lookup 1 with
        | none =>
          simp only [hl]
          constructor
          · intro final hfin
            simp at hfin
          · intro c hc
            simp at hc
            exact ⟨e0, by simp, hf, slot, by simp [hc]⟩
        | some r2 =>
          simp only [hl]
          constructor
          · intro final hfin
            cases hrec : (eveningRetry env eresp es rest (i + 1)).2 with
            | none => rw [hrec] at hfin; simp at hfin
            | some fin =>
              have := (ih (i + 1)).1 fin hrec
              simp [this]
          · intro c hc
            simp only [List.mem_cons] at hc
            rcases hc with rfl | hc
            · exact ⟨e0, by simp, hf, slot, rfl⟩
            · obtain ⟨e, he, hef, s, hs'⟩ := (ih (i + 1)).2 c hc
              exact ⟨e, by simp [he], hef, s, hs'⟩
    · have hf' : isStr e0.fac "FAILED" = false := by
        cases hb : isStr e0.fac "FAILED" with
        | true => exact absurd hb hf
        | false => rfl
      rw [eveningRetry, eveningCallsSpec]
      simp only [hf', Bool.false_eq_true, if_false]
      constructor
      · intro final hfin
        cases hrec : (eveningRetry env eresp es rest (i + 1)).2 with
        | none => rw [hrec] at hfin; simp at hfin
        | some fin => exact (ih (i + 1)).1 fin hrec
      · intro c hc
        obtain ⟨e, he, hef, s, hs'⟩ := (ih (i + 1)).2 c hc
        exact ⟨e, by simp [he], hef, s, hs'⟩

/-- C1 counterexample: a concrete full run in which `Flat_Y` wins its
morning slot and `Flat_D` loses; the orchestrator does NOT move the whole
pair to the evening strategy — its second booking call carries only
`["Flat_D"]` — and the final record leaves `Flat_Y` on the morning slot
`m1` while `Flat_D` ends on the evening slot `e2`, the very split the claim
rules out. -/
theorem C1_counterexample :
    (scheduler_main (.ok cfgW) worldW todayW).pairCalls =
      [⟨["Flat_Y", "Flat_D"], ["m1", "m2"]⟩, ⟨["Flat_D"], ["e2"]⟩]
    ∧ (scheduler_main (.ok cfgW) worldW todayW).outcome.bookedInfo? =
        some [⟨"m1", "Flat_Y", .str "A1"⟩, ⟨"e2", "Flat_D", .str "B2"⟩] :=
  ⟨rfl, rfl⟩

/-- C1 witness: the amended characterization evaluated on the concrete
post-morning record (one success, one failure): the evening phase makes
exactly the one single-flat call the specification predicts. -/
theorem C1_witness :
    (eveningRetry envW worldW.eveningResp ["e1", "e2"]
        [⟨"m1", "Flat_Y", .str "A1"⟩, ⟨"m2", "Flat_D", .str "FAILED"⟩] 0).1 =
      eveningCallsSpec ["e1", "e2"]
        [⟨"m1", "Flat_Y", .str "A1"⟩, ⟨"m2", "Flat_D", .str "FAILED"⟩] 0 :=
  (C1_amended envW worldW.eveningResp ["e1", "e2"]
    [⟨"m1", "Flat_Y", .str "A1"⟩, ⟨"m2", "Flat_D", .str "FAILED"⟩] 0).1
    [⟨"m1", "Flat_Y", .str "A1"⟩, ⟨"e2", "Flat_D", .str "B2"⟩] rfl


/-- Coarse-phase invariants: every recorded sleep is the literal 500 ms
(0.5 s), the clock is re-read once per iteration (one more read than
sleeps), and every read except the breaking one was taken with strictly
more than 2 seconds remaining. -/
theorem waitPhase1_spec (clock : Nat → Int) (fuel i : Nat)
    (rs ss : List Int) (j : Nat)
    (h : waitPhase1 clock fuel i = some (rs, ss, j)) :
    (∀ d ∈ ss, d = 500)
    ∧ rs.length = ss.length + 1
    ∧ (∀ idx r, rs.get? idx = some r → idx + 1 < rs.length →
        2000 < targetMillis - r) := by
  induction fuel generalizing i rs ss j with
  | zero => simp [waitPhase1] at h
  | succ fuel ih =>
    rw [waitPhase1] at h
    by_cases hb : targetMillis - clock i ≤ 2000
    · rw [if_pos hb] at h
      simp only [Option.some.injEq, Prod.mk.injEq] at h
      obtain ⟨rfl, rfl, rfl⟩ := h
      refine ⟨by simp, by simp, ?_⟩
      intro idx r hr hlt
      simp at hlt
    · rw [if_neg hb] at h
      cases hrec : waitPhase1 clock fuel (i + 1) with
      | none => rw [hrec] at h; simp at h
      | some tri =>
        obtain ⟨rs', ss', j'⟩ := tri
        rw [hrec] at h
        simp only [Option.some.injEq, Prod.mk.injEq] at h
        obtain ⟨rfl, rfl, rfl⟩ := h
        obtain ⟨ihs, ihl, ihr⟩ := ih (i + 1) rs' ss' _ hrec
        refine ⟨?_, by simp [ihl], ?_⟩
        · intro d hd
          rcases List.mem_cons.mp hd with rfl | hd'
          · rfl
          · exact ihs d hd'
        · intro idx r hr hlt
          cases idx with
          | zero =>
            simp at hr
            subst hr
            exact lt_of_not_ge (fun hge => hb (by linarith))
          | succ idx' =>
            simp only [List.get?_cons_succ] at hr
            simp only [List.length_cons] at hlt
            exact ihr idx' r hr (by omega)

/-- Precision-phase invariants: every recorded sleep is the literal 1 ms,
one more read than sleeps, and the last read — the one on which the loop
exits — is at or past the target. -/
theorem waitPhase2_spec (clock : Nat → Int) (fuel i : Nat)
    (rs ss : List Int) (h : waitPhase2 clock fuel i = some (rs, ss)) :
    (∀ d ∈ ss, d = 1)
    ∧ rs.length = ss.length + 1
    ∧ (∃ t, rs.getLast? = some t ∧ targetMillis ≤ t) := by
  induction fuel generalizing i rs ss with
  | zero => simp [waitPhase2] at h
  | succ fuel ih =>
    rw [waitPhase2] at h
    by_cases hb : clock i < targetMillis
    · rw [if_pos hb] at h
      cases hrec : waitPhase2 clock fuel (i + 1) with
      | none => rw [hrec] at h; simp at h
      | some pr =>
        obtain ⟨rs', ss'⟩ := pr
        rw [hrec] at h
        simp only [Option.some.injEq, Prod.mk.injEq] at h
        obtain ⟨rfl, rfl⟩ := h
        obtain ⟨ihs, ihl, t, hlast, hle⟩ := ih (i + 1) rs' ss' hrec
        refine ⟨?_, by simp [ihl], ?_⟩
        · intro d hd
          rcases List.mem_cons.mp hd with rfl | hd'
          · rfl
          · exact ihs d hd'
        · cases rs' with
          | nil => simp at ihl
          | cons x xs =>
            exact ⟨t, by rw [List.getLast?_cons_cons]; exact hlast, hle⟩
    · rw [if_neg hb] at h
      simp only [Option.some.injEq, Prod.mk.injEq] at h
      obtain ⟨rfl, rfl⟩ := h
      exact ⟨by simp, by simp, clock i, rfl, le_of_not_lt hb⟩

/-- C6 amended: whenever the release gate terminates, it unblocks only at a
clock reading at or past the 06:00:02 target; it returns immediately with no
sleep at all when the first reading is already at or past the target; while
the loop saw more than 2 seconds remaining it slept in 0.5-second (500 ms,
not one-second) increments, re-reading the clock on every iteration; and
within 2 seconds of the target it polled with a 1 ms (sub-10 ms) sleep until
the target was reached. -/
theorem C6_amended (fuel : Nat) (clock : Nat → Int) (tr : WaitTrace)
    (h : wait_until_6am_or_run_now fuel clock = some tr) :
    targetMillis ≤ tr.finalRead
    ∧ (targetMillis ≤ clock 0 → tr = ⟨clock 0, [], [], [], [], clock 0⟩)
    ∧ (∀ d ∈ tr.sleeps1, d = 500)
    ∧ (∀ idx r, tr.reads1.get? idx = some r → idx + 1 < tr.reads1.length →
        2000 < targetMillis - r)
    ∧ (∀ d ∈ tr.sleeps2, d = 1 ∧ d < 10)
    ∧ (¬ targetMillis ≤ clock 0 →
        tr.reads1.length = tr.sleeps1.length + 1
        ∧ tr.reads2.length = tr.sleeps2.length + 1) := by
  unfold wait_until_6am_or_run_now at h
  by_cases h0 : targetMillis ≤ clock 0
  · rw [if_pos h0] at h
    simp only [Option.some.injEq] at h
    subst h
    refine ⟨h0, fun _ => rfl, by simp, ?_, by simp, fun hn => absurd h0 hn⟩
    intro idx r hr hlt
    simp at hr
  · rw [if_neg h0] at h
    cases hp1 : waitPhase1 clock fuel 1 with
    | none => simp only [hp1] at h; exact Option.noConfusion h
    | some tri =>
      obtain ⟨rs1, ss1, j⟩ := tri
      simp only [hp1] at h
      cases hp2 : waitPhase2 clock fuel j with
      | none => simp only [hp2] at h; exact Option.noConfusion h
      | some pr =>
        obtain ⟨rs2, ss2⟩ := pr
        simp only [hp2, Option.some.injEq] at h
        subst h
        obtain ⟨h1s, h1l, h1r⟩ := waitPhase1_spec clock fuel 1 rs1 ss1 j hp1
        obtain ⟨h2s, h2l, t, hlast, hle⟩ :=
          waitPhase2_spec clock fuel j rs2 ss2 hp2
        refine ⟨?_, fun hc => absurd hc h0, h1s, h1r,
          fun d hd => ⟨h2s d hd, by rw [h2s d hd]; norm_num⟩,
          fun _ => ⟨h1l, h2l⟩⟩
        simpa [hlast] using hle

/-- Concrete release-gate trace produced by `clockC` with fuel 50: three
0.5-second coarse sleeps, one 1 ms poll, unblocking at 06:00:02. -/
def trW : WaitTrace :=
  ⟨21596000, [21597000, 21598000, 21599000, 21600000], [500, 500, 500],
    [21601000, 21602000], [1], 21602000⟩

/-- C6 counterexample: on a concrete clock the coarse-phase sleep increments
are all the literal 500 ms — no 1-second sleep ever occurs — refuting the
claim's "~1-second increments" description of the coarse phase. -/
theorem C6_counterexample :
    (wait_until_6am_or_run_now 50 clockC).map WaitTrace.sleeps1 =
      some [500, 500, 500]
    ∧ ¬ ((1000 : Int) ∈ ([500, 500, 500] : List Int)) :=
  ⟨rfl, by decide⟩

/-- C6 witness: the amended theorem applied to the concrete run of
`clockC`: it unblocked at or past the target and every coarse sleep was
500 ms. -/
theorem C6_witness :
    targetMillis ≤ trW.finalRead ∧ ∀ d ∈ trW.sleeps1, d = 500 := by
  have h := C6_amended 50 clockC trW rfl
  exact ⟨h.1, h.2.2.1⟩

/-- C9: a response carrying the exact success message but no nested `data`
object (or a `data` object without `facUserId`) still yields
`succeeded = true` with a `None` reservation id; and every `booked_info`
entry whose id is Python `None` is rendered as a success line reading
`"... → facUserId: None"`, never as a failure line. -/
theorem C9_theorem :
    (∀ (env : String → Option String) (flat : String) (fi : FlatInfo)
       (fs : JFields),
       flats_info.lookup flat = some fi →
       cookieTruthy (env fi.cookie_env) = true →
       jlookup fs "message" = some (.str successMessage) →
       (jlookup fs "data" = none
        ∨ ∃ gs, jlookup fs "data" = some (.obj gs)
            ∧ jlookup gs "facUserId" = none) →
       make_booking env flat (.json (.obj fs)) = some ⟨⟨true, .null⟩, 1⟩)
    ∧ (∀ (info : List BookedEntry) (s f : List String) (e : BookedEntry),
        classify info = some (s, f) → e ∈ info → e.fac = .null →
        ∃ fi, flats_info.lookup e.flat = some fi
          ∧ (e.slot ++ " → " ++ fi.display ++ " → facUserId: None") ∈ s) := by
  constructor
  · intro env flat fi fs hfi hc hm hd
    unfold make_booking
    rw [hfi]
    simp only [hc, if_true]
    rcases hd with hd | ⟨gs, hd, hg⟩
    · simp [parseResponse, jgetD, hm, hd, isStr, jlookup]
    · simp [parseResponse, jgetD, hm, hd, hg, isStr]
  · intro info
    induction info with
    | nil => intro s f e _ he; simp at he
    | cons e0 rest ih =>
      intro s f e hcl he hfac
      rw [classify] at hcl
      cases hline : mkLine e0 with
      | none => rw [hline] at hcl; simp at hcl
      | some line =>
        rw [hline] at hcl
        cases hrest : classify rest with
        | none => rw [hrest] at hcl; simp at hcl
        | some sf =>
          obtain ⟨s', f'⟩ := sf
          rw [hrest] at hcl
          rcases List.mem_cons.mp he with rfl | he'
          · have hff : isStr e.fac "FAILED" = false := by
              rw [hfac]; rfl
            rw [hff] at hcl
            simp only [Bool.false_eq_true, if_false, Option.some.injEq,
              Prod.mk.injEq] at hcl
            obtain ⟨hs, hf⟩ := hcl
            unfold mkLine at hline
            cases hfl : flats_info.lookup e.flat with
            | none => rw [hfl] at hline; simp at hline
            | some fi =>
              rw [hfl] at hline
              simp only [Option.map_some', Option.some.injEq] at hline
              rw [hff] at hline
              simp only [Bool.false_eq_true, if_false] at hline
              refine ⟨fi, rfl, ?_⟩
              rw [← hs, List.mem_cons]
              left
              rw [hfac] at hline
              simp only [pyStr] at hline
              rw [← hline]
              simp [String.append_assoc]
          · by_cases hf0 : isStr e0.fac "FAILED" = true
            · rw [hf0] at hcl
              simp only [if_true, Option.some.injEq, Prod.mk.injEq] at hcl
              obtain ⟨hs, hf⟩ := hcl
              obtain ⟨fi, hfi, hmem⟩ := ih s' f' e hrest he' hfac
              exact ⟨fi, hfi, by rw [← hs]; exact hmem⟩
            · have hf0' : isStr e0.fac "FAILED" = false := by
                cases hb : isStr e0.fac "FAILED" with
                | true => exact absurd hb hf0
                | false => rfl
              rw [hf0'] at hcl
              simp only [Bool.false_eq_true, if_false, Option.some.injEq,
                Prod.mk.injEq] at hcl
              obtain ⟨hs, hf⟩ := hcl
              obtain ⟨fi, hfi, hmem⟩ := ih s' f' e hrest he' hfac
              exact ⟨fi, hfi, by rw [← hs]; exact List.mem_cons_of_mem _ hmem⟩

/-- C9 witness: a success body with no `data` field books with a `None` id,
and the concrete entry is reported on the success side with the literal
`facUserId: None` text. -/
theorem C9_witness :
    make_booking envW "Flat_Y"
        (.json (.obj (.cons "message" (.str successMessage) .nil))) =
      some ⟨⟨true, .null⟩, 1⟩
    ∧ ∃ fi, flats_info.lookup "Flat_Y" = some fi
        ∧ ("m1 → " ++ fi.display ++ " → facUserId: None") ∈
            (["m1 → Yuvi → facUserId: None"] : List String) := by
  constructor
  · exact C9_theorem.1 envW "Flat_Y" ⟨"1711676", "FLAT_Y", "Yuvi"⟩
      (.cons "message" (.str successMessage) .nil) rfl rfl rfl (Or.inl rfl)
  · have h := C9_theorem.2 [⟨"m1", "Flat_Y", .null⟩]
      ["m1 → Yuvi → facUserId: None"] [] ⟨"m1", "Flat_Y", .null⟩ rfl
      (by simp) rfl
    simpa using h
